import Mathlib

/-!
Shallow embedding of the client logic of the Sabhya gateway frontend
(src/frontend of the repository) in Lean 4, together with theorems
settling the behavioural claims about it.

Conventions:
* JavaScript `null` / `undefined` on a field are both modelled as `Option.none`.
* JavaScript truthiness of tri-state booleans (`auditLog?.pii_detected`)
  is modelled by `truthy : Option Bool → Bool` (null/undefined are falsy).
* String operations are implemented over `String.data` character lists so
  that every definition evaluates by `decide` / `rfl`.
-/

namespace Sabhya

/- ===================== generic string helpers ===================== -/

/-- JS truthiness of a nullable boolean field: null/undefined are falsy. -/
def truthy : Option Bool → Bool
  | none => false
  | some b => b

/-- JS truthiness of a nullable string field: null/undefined/"" are falsy. -/
def jsTruthy : Option String → Bool
  | none => false
  | some s => !(s == "")

/-- Whitespace characters removed by `String.prototype.trim` that occur in
this code base (space, tab, newline, carriage return). -/
def isSpaceChar (c : Char) : Bool :=
  (c == ' ') || (c == '\t') || (c == '\n') || (c == '\r')

/-- Model of JS `s.trim()`. -/
def sTrim (s : String) : String :=
  ⟨((s.data.dropWhile isSpaceChar).reverse.dropWhile isSpaceChar).reverse⟩

/-- Model of JS `s.startsWith(pat)`. -/
def sStartsWith (s pat : String) : Bool :=
  pat.data.isPrefixOf s.data

/-- Model of JS `s.endsWith(pat)`. -/
def sEndsWith (s pat : String) : Bool :=
  pat.data.isSuffixOf s.data

/-- Model of JS `s.slice(n)` for `n ≥ 0` (drop the first `n` characters). -/
def sDrop (s : String) (n : Nat) : String :=
  ⟨s.data.drop n⟩

/-- Take the first `n` characters of a string. -/
def sTake (s : String) (n : Nat) : String :=
  ⟨s.data.take n⟩

/-- Drop the last `n` characters of a string. -/
def sDropRight (s : String) (n : Nat) : String :=
  ⟨s.data.take (s.data.length - n)⟩

/-- ASCII lower-casing of a string (models the `i` regex flag on the
ASCII literals `markdown` / `txt`). -/
def sToLower (s : String) : String :=
  ⟨s.data.map Char.toLower⟩

/-- Split a character list at the first occurrence of the pattern `pat`:
returns the part strictly before the match and the part strictly after it. -/
def findSplit (pat : List Char) : List Char → Option (List Char × List Char)
  | [] => if pat.isEmpty then some ([], []) else none
  | c :: rest =>
    if pat.isPrefixOf (c :: rest) then
      some ([], (c :: rest).drop pat.length)
    else
      match findSplit pat rest with
      | some (pre, post) => some (c :: pre, post)
      | none => none

/-- Split a string at the first occurrence of `pat` (leftmost regex match
of a literal pattern): `some (before, after)`, or `none` if absent. -/
def splitFirst (s pat : String) : Option (String × String) :=
  match findSplit pat.data s.data with
  | some (pre, post) => some (⟨pre⟩, ⟨post⟩)
  | none => none

/-- Model of JS `s.includes(pat)`. -/
def containsSub (s pat : String) : Bool :=
  (splitFirst s pat).isSome

/- ===================== data model (src/frontend/lib/types.ts) ===================== -/

/-- Chat roles, from the `ChatMessage` interface in lib/types.ts. -/
inductive Role where
  | system
  | user
  | assistant
  deriving DecidableEq, Repr

/-- Interface `ChatMessage` of lib/types.ts. -/
structure ChatMessage where
  role : Role
  content : String
  deriving DecidableEq, Repr

/-- One element of `ChatResponse.choices` in lib/types.ts. -/
structure Choice where
  index : Nat
  message : ChatMessage
  finish_reason : String
  deriving DecidableEq, Repr

/-- Interface `ChatResponse.usage` of lib/types.ts. -/
structure Usage where
  prompt_tokens : Nat
  completion_tokens : Nat
  total_tokens : Nat
  deriving DecidableEq, Repr

/-- Interface `ChatResponse` of lib/types.ts. -/
structure ChatResponse where
  id : String
  object : String
  created : Nat
  model : String
  choices : List Choice
  usage : Usage
  deriving DecidableEq, Repr

/-- Interface `AuditLog` of lib/types.ts.  Numeric fields are modelled over `Nat`;
`boolean | null` fields are `Option Bool` (`none` = JSON null or a missing /
undefined field). -/
structure AuditLog where
  request_id : String
  timestamp : Nat
  user_hash : String
  model : String
  status_code : Nat
  latency_ms : Option Nat
  prompt_tokens : Option Nat
  completion_tokens : Option Nat
  total_tokens : Option Nat
  pii_detected : Option Bool
  request_blocked : Option Bool
  deriving DecidableEq, Repr

/-- A RAG citation, `Source` in the frontend (document name and chunk index). -/
structure Source where
  source : String
  chunk_index : Nat
  deriving DecidableEq, Repr

/-- Tag `GatewayError.type` of lib/api.ts (src/unnamed/part_012). -/
inductive ErrorType where
  | blocked
  | rateLimit
  | upstream
  | gatewayOffline
  | unknownError
  deriving DecidableEq, Repr

/-- Class `GatewayError` of lib/api.ts: a message plus an error-taxonomy tag. -/
structure GatewayError where
  message : String
  type : ErrorType
  deriving DecidableEq, Repr

/- ===================== ResponseViewer (components/interaction/ResponseViewer.tsx) ===================== -/

/-- Trust status computed by `ResponseViewer` (lines 77-84): the component
distinguishes only PENDING / REDACTED / ALLOWED.  Note the source has no
BLOCKED and no UNKNOWN branch. -/
inductive ViewerStatus where
  | pending
  | redacted
  | allowed
  deriving DecidableEq, Repr

/-- Status banner text of `ResponseViewer` (line 83). -/
def statusText : ViewerStatus → String
  | ViewerStatus.pending => "Governance Verification Pending..."
  | ViewerStatus.redacted => "Response Redacted"
  | ViewerStatus.allowed => "Response Allowed"

/-- Source logic `isPending = !auditLog; isRedacted = auditLog?.pii_detected`
(ResponseViewer lines 77-78), resolved to a status the way lines 80-84 do. -/
def viewerStatus (auditLog : Option AuditLog) : ViewerStatus :=
  match auditLog with
  | none => ViewerStatus.pending
  | some log =>
    if truthy log.pii_detected then ViewerStatus.redacted else ViewerStatus.allowed

/-- Source expression `response.choices[0]?.message.content || ""` (ResponseViewer line 73). -/
def responseContent (r : ChatResponse) : String :=
  match r.choices.head? with
  | some c => c.message.content
  | none => ""

/-- Error title chosen by the error branch of `ResponseViewer` (lines 32-45):
default "Request Blocked", overridden for rate-limit and upstream failures. -/
def errorTitle : ErrorType → String
  | ErrorType.rateLimit => "Rate Limit Exceeded"
  | ErrorType.upstream => "Upstream Failure"
  | _ => "Request Blocked"

/-- The view rendered by `ResponseViewer`.  In the `responseView` case the
`content` argument is the raw response text, which the source renders
unconditionally (line 102). -/
inductive ViewerView where
  | loading
  | errorView (title message : String)
  | ready
  | responseView (status : ViewerStatus) (content : String)
  deriving DecidableEq, Repr

/-- The `ResponseViewer` component as a function of its props, following the
early returns of the source: loading, then error, then the empty-ready state, then
the response body with the trust status of `viewerStatus`. -/
def responseViewer (response : Option ChatResponse) (gatewayError : Option GatewayError)
    (isLoading : Bool) (auditLog : Option AuditLog) : ViewerView :=
  match isLoading, gatewayError, response with
  | true, _, _ => ViewerView.loading
  | false, some e, _ => ViewerView.errorView (errorTitle e.type) e.message
  | false, none, none => ViewerView.ready
  | false, none, some r => ViewerView.responseView (viewerStatus auditLog) (responseContent r)

/- ===================== AuditSidebar (components/layout/AuditSidebar.tsx) ===================== -/

/-- Security-status badge of `AuditSidebar` (lines 44-76). -/
inductive SidebarStatus where
  | blocked
  | redacted
  | unknownStatus
  | clean
  deriving DecidableEq, Repr

/-- Security-status chain of the sidebar (lines 44-76): `request_blocked`
truthy → Blocked; else `pii_detected` truthy → PII Redacted; else either
field null/undefined → Security Unknown; else Clean Request. -/
def sidebarStatus (log : AuditLog) : SidebarStatus :=
  if truthy log.request_blocked then SidebarStatus.blocked
  else if truthy log.pii_detected then SidebarStatus.redacted
  else if log.request_blocked.isNone || log.pii_detected.isNone then SidebarStatus.unknownStatus
  else SidebarStatus.clean

/-- The view rendered by the scroll area of `AuditSidebar` (lines 23-121):
loading spinner, audit-service-unavailable banner, a record with its
security status, or the empty placeholder. -/
inductive SidebarView where
  | loading
  | unavailable
  | record (status : SidebarStatus)
  | empty
  deriving DecidableEq, Repr

/-- Body of `AuditSidebar` as a function of its props. -/
def auditSidebar (auditLog : Option AuditLog) (isLoading auditError : Bool) : SidebarView :=
  match isLoading, auditError, auditLog with
  | true, _, _ => SidebarView.loading
  | false, true, _ => SidebarView.unavailable
  | false, false, some log => SidebarView.record (sidebarStatus log)
  | false, false, none => SidebarView.empty

/- ===================== concrete records (mirroring src/unnamed/part_007 mocks) ===================== -/

/-- The mock `ChatResponse` of the governance test harness (part_007 lines 12-23). -/
def mockResponse : ChatResponse :=
  { id := "test-uuid"
    object := "chat.completion"
    created := 1700000000000
    model := "mistral:7b-instruct"
    choices := [{ index := 0
                  message := { role := Role.assistant
                               content := "This is a test response content. It should be hidden if blocked." }
                  finish_reason := "stop" }]
    usage := { prompt_tokens := 10, completion_tokens := 20, total_tokens := 30 } }

/-- The clean mock `AuditLog` of the test harness (part_007 lines 25-37). -/
def mockAuditClean : AuditLog :=
  { request_id := "test-uuid"
    timestamp := 1700000000
    user_hash := "system"
    model := "mistral:7b-instruct"
    status_code := 200
    latency_ms := some 150
    prompt_tokens := some 10
    completion_tokens := some 20
    total_tokens := some 30
    pii_detected := some false
    request_blocked := some false }

/-- Scenario 4 of the test harness: the audit record of a blocked request. -/
def mockAuditBlocked : AuditLog :=
  { mockAuditClean with request_blocked := some true, status_code := 400 }

/-- Scenario 5 of the test harness: malformed record with null security fields. -/
def mockAuditMalformed : AuditLog :=
  { mockAuditClean with pii_detected := none, request_blocked := none }

/-- A record carrying both signals at once: blocked and PII detected. -/
def mockAuditBoth : AuditLog :=
  { mockAuditClean with pii_detected := some true, request_blocked := some true }

/-- A record with `pii_detected = true` and `request_blocked = null`. -/
def mockAuditPiiWithNullBlocked : AuditLog :=
  { mockAuditClean with pii_detected := some true, request_blocked := none }

/- ===================== thought/content splitter (app/(protected)/page.tsx) ===================== -/

/-- The cosmetic fence-stripping of page.tsx (lines 884-887, 1225-1228,
1267-1270): remove a leading ` ```markdown ` / ` ```txt ` / ` ``` ` fence
(case-insensitive, optional trailing newline), remove a trailing ` ``` `,
then trim. -/
def stripFences (s : String) : String :=
  let s1 :=
    if sStartsWith s "```" then
      let r := sDrop s 3
      let r :=
        if sToLower (sTake r 8) = "markdown" then sDrop r 8
        else if sToLower (sTake r 3) = "txt" then sDrop r 3
        else r
      if sStartsWith r "\n" then sDrop r 1 else r
    else s
  let s2 := if sEndsWith s1 "```" then sDropRight s1 3 else s1
  sTrim s2

/-- The live streaming render split, page.tsx lines 1217-1228: `thought` is
the capture of `/<thought>([\s\S]*?)(?:<\/thought>|$)([\s\S]*)/` when the
opening tag is present, `thinkingDone` is `streamingText.includes("</thought>")`,
and `main` is the fence-stripped second capture (the whole fence-stripped
text when no opening tag was seen, lines 1267-1270). -/
structure StreamView where
  thought : Option String
  thinkingDone : Bool
  main : String
  deriving DecidableEq, Repr

/-- The streaming thought splitter of `SabhyaDashboard` (page.tsx 1215-1270).
The lazy first group of the regex stops at the first closing tag after the first
opening tag, or extends to the end of the input when unterminated. -/
def streamSplit (s : String) : StreamView :=
  match splitFirst s "<thought>" with
  | none =>
      { thought := none, thinkingDone := false, main := stripFences s }
  | some (_, afterOpen) =>
      match splitFirst afterOpen "</thought>" with
      | some (inner, afterClose) =>
          { thought := some inner
            thinkingDone := containsSub s "</thought>"
            main := stripFences afterClose }
      | none =>
          { thought := some afterOpen
            thinkingDone := containsSub s "</thought>"
            main := stripFences "" }

/-- Result of the done-handler extraction (page.tsx 874-887). -/
structure FinalExtract where
  thought_process : Option String
  content : String
  deriving DecidableEq, Repr

/-- The done-handler of `submitRequest` (page.tsx 874-887): when both tags are
present, the thought is the trimmed first lazy capture and the tagged span is
removed and the remainder trimmed; then the fence strip is applied.  With no
complete tag pair the accumulated text goes through the fence strip unchanged. -/
def finalExtract (fullContent : String) : FinalExtract :=
  match splitFirst fullContent "<thought>" with
  | none => { thought_process := none, content := stripFences fullContent }
  | some (pre, afterOpen) =>
    match splitFirst afterOpen "</thought>" with
    | none => { thought_process := none, content := stripFences fullContent }
    | some (inner, afterClose) =>
        { thought_process := some (sTrim inner)
          content := stripFences (sTrim (pre ++ afterClose)) }

/- ===================== SSE read loop (page.tsx 845-928) ===================== -/

/-- Fields of a parsed SSE JSON frame that `submitRequest` reads:
`error`, `token`, `done`, `sources`, `pii_detected`. -/
structure Frame where
  error : Option String
  token : Option String
  done : Bool
  sources : List Source
  pii_detected : Bool
  deriving DecidableEq, Repr

/-- Terminal data carried out of the loop by the `parsed.done` branch. -/
structure DoneResult where
  content : String
  thought_process : Option String
  piiWarning : Bool
  sources : List Source
  deriving DecidableEq, Repr

/-- How the read loop ended: the `parsed.error` early return or the
`parsed.done` early return. -/
inductive StreamOutcome where
  | errored (message : String)
  | completed (result : DoneResult)
  deriving DecidableEq, Repr

/-- State threaded through the SSE line loop: the accumulated `fullContent`
and, once an early `return` fired, the terminal outcome. -/
structure LoopState where
  fullContent : String
  outcome : Option StreamOutcome
  deriving DecidableEq, Repr

/-- Initially `fullContent` is empty and no outcome has been produced. -/
def initialLoopState : LoopState :=
  { fullContent := "", outcome := none }

/-- Handling of one successfully parsed frame (page.tsx 861-922): a truthy
`error` returns the error outcome; a truthy `token` is appended to the
accumulated content; a truthy `done` runs the done-handler extraction and
returns the completed outcome.  (`currentSources` was cleared to `[]` at
submit time and only the done frame carries sources, so the `sources` field of the done frame is what the handler stores.) -/
def processFrame (st : LoopState) (f : Frame) : LoopState :=
  if jsTruthy f.error then
    { st with outcome := some (StreamOutcome.errored (f.error.getD "")) }
  else
    let content := if jsTruthy f.token then st.fullContent ++ f.token.getD "" else st.fullContent
    if f.done then
      let ex := finalExtract content
      { fullContent := content
        outcome := some (StreamOutcome.completed
          { content := ex.content
            thought_process := ex.thought_process
            piiWarning := f.pii_detected
            sources := f.sources }) }
    else
      { st with fullContent := content }

/-- Handling of one SSE line (page.tsx 853-927), parameterised by the JSON
parser (`JSON.parse` wrapped in try/catch, hence `Option`): lines without the
`"data: "` prefix are ignored, the literal `[DONE]` payload is skipped before
any parse, a failed parse is silently skipped, and a parsed frame is handed to
`processFrame`.  Once an outcome exists the JS code has already returned, so
later lines leave the state unchanged. -/
def processLine (parse : String → Option Frame) (st : LoopState) (line : String) : LoopState :=
  match st.outcome with
  | some _ => st
  | none =>
    if sStartsWith line "data: " then
      let data := sDrop line 6
      if data = "[DONE]" then st
      else
        match parse data with
        | none => st
        | some f => processFrame st f
    else st

/-- The SSE line loop folded over a list of received lines. -/
def processLines (parse : String → Option Frame) (st : LoopState) (lines : List String) : LoopState :=
  lines.foldl (processLine parse) st

/-- A parser that rejects every payload (used to instantiate theorems at
concrete inputs). -/
def parseNone : String → Option Frame :=
  fun _ => none

/- ===================== audit-log poll (src/unnamed/part_012, getAuditLog) ===================== -/

/-- Outcome of one `getRecentLogs(50)` call inside the retry loop: the fetch
threw, or it returned a page of audit records. -/
inductive FetchOutcome where
  | err
  | ok (logs : List AuditLog)

/-- Source expression `logs.find((l) => l.request_id === requestId)` (part_012 line 72). -/
def findLog (rid : String) (logs : List AuditLog) : Option AuditLog :=
  logs.find? (fun l => l.request_id == rid)

/-- Body of the retry loop in getAuditLog (part_012 lines 67-82), with the
successive fetch outcomes of the environment supplied as `fetches`.  The pair
returned is the resolution value of the JS function (`log` or `null`) together
with the number of fetch attempts actually made.  The fixed inter-attempt
delay is pure waiting and has no observable effect on the result. -/
def getAuditLogFrom (fetches : Nat → FetchOutcome) (rid : String) : Nat → Nat → Option AuditLog × Nat
  | _, 0 => (none, 0)
  | i, n + 1 =>
    match fetches i with
    | FetchOutcome.err =>
        ((getAuditLogFrom fetches rid (i + 1) n).1, (getAuditLogFrom fetches rid (i + 1) n).2 + 1)
    | FetchOutcome.ok logs =>
        match findLog rid logs with
        | some log => (some log, 1)
        | none =>
            ((getAuditLogFrom fetches rid (i + 1) n).1, (getAuditLogFrom fetches rid (i + 1) n).2 + 1)

/-- Default value `attempts = 5` from the source (part_012 line 66). -/
def defaultAuditAttempts : Nat := 5

/-- Function `getAuditLog(requestId, attempts)`: run the bounded retry loop from the
first attempt. -/
def getAuditLog (fetches : Nat → FetchOutcome) (rid : String) (attempts : Nat) :
    Option AuditLog × Nat :=
  getAuditLogFrom fetches rid 0 attempts

/- ===================== submitRequest prologue (page.tsx 795-813) ===================== -/

/-- State `processingState` of the dashboard (page.tsx line 757). -/
inductive ProcessingState where
  | idle
  | processing
  | completed
  | errored
  deriving DecidableEq, Repr

/-- A chat message as stored in the dashboard history (role, content,
timestamp from `new Date().getTime()`). -/
structure DashMessage where
  role : Role
  content : String
  timestamp : Nat
  deriving DecidableEq, Repr

/-- The dashboard state fields touched by the synchronous prologue of submitRequest (page.tsx 755-765). -/
structure DashState where
  promptInput : String
  processingState : ProcessingState
  piiWarning : Bool
  chatHistory : List DashMessage
  streamingText : String
  isStreaming : Bool
  currentSources : List Source
  deriving DecidableEq, Repr

/-- The synchronous prologue of `submitRequest` (page.tsx 795-813): a blank
prompt or an in-flight request returns without touching anything; otherwise
the user message is appended, the processing flag set, and the streaming
text, sources, PII warning and prompt input are all reset. -/
def submitRequestPrologue (st : DashState) (now : Nat) : DashState :=
  if sTrim st.promptInput = "" ∨ st.processingState = ProcessingState.processing then st
  else
    { st with
      chatHistory := st.chatHistory ++
        [{ role := Role.user, content := st.promptInput, timestamp := now }]
      processingState := ProcessingState.processing
      streamingText := ""
      isStreaming := true
      currentSources := []
      piiWarning := false
      promptInput := "" }

/-- A dashboard state with stale trust indicators and a request in flight:
used to evaluate the prologue on a rejected re-submission. -/
def c9State : DashState :=
  { promptInput := "second prompt"
    processingState := ProcessingState.processing
    piiWarning := true
    chatHistory := []
    streamingText := "previous stream"
    isStreaming := true
    currentSources := [{ source := "handbook.pdf", chunk_index := 3 }] }

/- ===================== InteractionPanel.handleSubmit (components/InteractionPanel.tsx 63-80) ===================== -/

/-- A message as stored in the state of `InteractionPanel`: role and content are
plain strings and assistant messages may carry sources and metadata. -/
structure PanelMeta where
  latency : Nat
  model : String
  tokens : Nat
  deriving DecidableEq, Repr

/-- Stored chat message of `InteractionPanel` (lines 9-14). -/
structure PanelMessage where
  role : String
  content : String
  sources : List Source
  meta : Option PanelMeta
  deriving DecidableEq, Repr

/-- A `{role, content}` pair as sent on the wire (lines 74-79). -/
structure WireMessage where
  role : String
  content : String
  deriving DecidableEq, Repr

/-- Projection applied by `handleSubmit` when building the request history. -/
def panelToWire (m : PanelMessage) : WireMessage :=
  { role := m.role, content := m.content }

/-- The request payload built by `handleSubmit` (lines 63-80): `none` when the
trimmed input is empty (early return, nothing sent); otherwise
`messages.slice(-5)` projected to role/content pairs with the new user
message pushed at the end. -/
def handleSubmitPayload (messages : List PanelMessage) (input : String) :
    Option (List WireMessage) :=
  if sTrim input = "" then none
  else
    some ((messages.drop (messages.length - 5)).map panelToWire ++
      [{ role := "user", content := input }])

/-- Modelled from the spec wording of the claim: the last `n` elements of a
list, fewer when the list is shorter.  Used only to compare the source
expression `slice(-5)` against the stated behaviour. -/
def lastN (n : Nat) (l : List PanelMessage) : List PanelMessage :=
  (l.reverse.take n).reverse

/-- A dashboard state identical to `c9State` except idle, so a submission is
accepted. -/
def c9GoodState : DashState :=
  { c9State with processingState := ProcessingState.idle }

/-- A seven-message stored history, longer than the five-message window. -/
def samplePanelHistory : List PanelMessage :=
  List.replicate 7 { role := "assistant", content := "earlier", sources := [], meta := none }

/- ===================== helper lemmas ===================== -/

theorem lastN_eq_drop (n : Nat) (l : List PanelMessage) :
    lastN n l = l.drop (l.length - n) := by
  rw [lastN, ← List.rtake_eq_reverse_take_reverse, List.rtake]

theorem getAuditLogFrom_attempts_le (fetches : Nat → FetchOutcome) (rid : String) :
    ∀ n i : Nat, (getAuditLogFrom fetches rid i n).2 ≤ n := by
  intro n
  induction n with
  | zero => intro i; simp [getAuditLogFrom]
  | succ n ih =>
    intro i
    unfold getAuditLogFrom
    cases hf : fetches i with
    | err => simpa using Nat.succ_le_succ (ih (i + 1))
    | ok logs =>
      cases hl : findLog rid logs with
      | some log => simp [hl]
      | none => simpa [hl] using Nat.succ_le_succ (ih (i + 1))

theorem getAuditLogFrom_all_missing (fetches : Nat → FetchOutcome) (rid : String)
    (h : ∀ i logs, fetches i = FetchOutcome.ok logs → findLog rid logs = none) :
    ∀ n i : Nat, (getAuditLogFrom fetches rid i n).1 = none := by
  intro n
  induction n with
  | zero => intro i; simp [getAuditLogFrom]
  | succ n ih =>
    intro i
    unfold getAuditLogFrom
    cases hf : fetches i with
    | err => simpa using ih (i + 1)
    | ok logs => simpa [h i logs hf] using ih (i + 1)

theorem processLine_failed_parse_skips (parse : String → Option Frame) (st : LoopState)
    (line : String) (h : parse (sDrop line 6) = none) :
    processLine parse st line = st := by
  unfold processLine
  cases ho : st.outcome with
  | some o => rfl
  | none =>
    cases hsw : sStartsWith line "data: " with
    | false => simp [hsw]
    | true =>
      by_cases hd : sDrop line 6 = "[DONE]"
      · simp [hsw, hd]
      · simp [hsw, hd, h]

/- ===================== claim theorems ===================== -/

/-- C1: the claim states that a record with `request_blocked = true` forces a
BLOCKED view with the raw content suppressed.  Evaluating the embedded
`ResponseViewer` at the failing input (the test-harness mock response plus the
blocked audit record, transport successful) shows the component instead
renders the status "Response Allowed" together with the raw response text,
while `AuditSidebar` classifies the very same record as Blocked.  The viewer
has no blocked branch at all. -/
theorem blocked_audit_record_renders_raw_content :
    responseViewer (some mockResponse) none false (some mockAuditBlocked)
        = ViewerView.responseView ViewerStatus.allowed
            "This is a test response content. It should be hidden if blocked."
      ∧ statusText (viewerStatus (some mockAuditBlocked)) = "Response Allowed"
      ∧ sidebarStatus mockAuditBlocked = SidebarStatus.blocked := by
  refine ⟨by decide, by decide, by decide⟩

/-- C2: the claim states that null/undefined `pii_detected` or
`request_blocked` resolve to UNKNOWN and are never rendered as allowed/clean.
Evaluating the embedded `ResponseViewer` at a record with both fields null
(the test-harness malformed scenario) shows it renders "Response Allowed",
while `AuditSidebar` classifies the same record as Security Unknown. -/
theorem null_security_fields_render_allowed :
    responseViewer (some mockResponse) none false (some mockAuditMalformed)
        = ViewerView.responseView ViewerStatus.allowed
            "This is a test response content. It should be hidden if blocked."
      ∧ statusText (viewerStatus (some mockAuditMalformed)) = "Response Allowed"
      ∧ sidebarStatus mockAuditMalformed = SidebarStatus.unknownStatus := by
  refine ⟨by decide, by decide, by decide⟩

/-- C3: the claim states that every trust classification evaluates
BLOCKED, then REDACTED, then UNKNOWN, then SAFE.  The sidebar does follow that
strict order (first four conjuncts), but `ResponseViewer` classifies the
example record given in the claim — `request_blocked = true` together with
`pii_detected = true` — as REDACTED instead of the dominating BLOCKED. -/
theorem trust_order_sidebar_vs_viewer :
    sidebarStatus mockAuditBoth = SidebarStatus.blocked
      ∧ sidebarStatus mockAuditPiiWithNullBlocked = SidebarStatus.redacted
      ∧ sidebarStatus mockAuditMalformed = SidebarStatus.unknownStatus
      ∧ sidebarStatus mockAuditClean = SidebarStatus.clean
      ∧ viewerStatus (some mockAuditBoth) = ViewerStatus.redacted := by
  refine ⟨by decide, by decide, by decide, by decide, by decide⟩

/-- C4: with no audit record (`auditLog = null`) the viewer shows the PENDING
state for every response, and PENDING is distinct from the allowed state.  The
embedded viewer is a pure function of its props with no time input, so no
timeout can ever move the absent-record case to SAFE: as long as the record
argument is `none` the result is PENDING. -/
theorem no_audit_record_remains_pending (r : ChatResponse) :
    responseViewer (some r) none false none
        = ViewerView.responseView ViewerStatus.pending (responseContent r)
      ∧ viewerStatus none = ViewerStatus.pending
      ∧ ViewerStatus.pending ≠ ViewerStatus.allowed :=
  ⟨rfl, rfl, by decide⟩

/-- Witness for C4 at the concrete mock response. -/
theorem no_audit_record_remains_pending_witness :
    responseViewer (some mockResponse) none false none
        = ViewerView.responseView ViewerStatus.pending (responseContent mockResponse)
      ∧ viewerStatus none = ViewerStatus.pending
      ∧ ViewerStatus.pending ≠ ViewerStatus.allowed :=
  no_audit_record_remains_pending mockResponse

/-- C5: the audit-log poll makes at most `attempts` sequential fetch attempts
(the source default is five, with a fixed one-second delay), and when every
attempt fails — by throwing or by returning a page without the record — it
resolves to `none` (the UNAVAILABLE outcome) instead of blocking or raising:
the embedded loop is a total function returning an `Option`. -/
theorem audit_poll_bounded (fetches : Nat → FetchOutcome) (rid : String) (attempts : Nat) :
    (getAuditLog fetches rid attempts).2 ≤ attempts
      ∧ ((∀ i logs, fetches i = FetchOutcome.ok logs → findLog rid logs = none) →
          (getAuditLog fetches rid attempts).1 = none) :=
  ⟨getAuditLogFrom_attempts_le fetches rid attempts 0,
   fun h => getAuditLogFrom_all_missing fetches rid h attempts 0⟩

/-- Witness for C5: an environment whose every fetch throws, polled with the
source default of five attempts. -/
theorem audit_poll_bounded_witness :
    (getAuditLog (fun _ => FetchOutcome.err) "req-1" defaultAuditAttempts).2
        ≤ defaultAuditAttempts
      ∧ (getAuditLog (fun _ => FetchOutcome.err) "req-1" defaultAuditAttempts).1 = none :=
  ⟨(audit_poll_bounded (fun _ => FetchOutcome.err) "req-1" defaultAuditAttempts).1,
   (audit_poll_bounded (fun _ => FetchOutcome.err) "req-1" defaultAuditAttempts).2
     (fun _ _ h => FetchOutcome.noConfusion h)⟩

/-- C6: the splitter round-trip.  Accumulated text with a closed tag pair
splits into the finalized thought "A" and main content "B" (both in the live
streaming view and in the done-handler extraction); an unterminated
`<thought>A` yields the in-progress thought "A" with empty main content; and
text with no opening tag is treated entirely as main content. -/
theorem thought_splitter_round_trip :
    streamSplit "<thought>A</thought>B"
        = { thought := some "A", thinkingDone := true, main := "B" }
      ∧ streamSplit "<thought>A"
        = { thought := some "A", thinkingDone := false, main := "" }
      ∧ finalExtract "<thought>A</thought>B"
        = { thought_process := some "A", content := "B" }
      ∧ ∀ s : String, containsSub s "<thought>" = false →
          streamSplit s = { thought := none, thinkingDone := false, main := stripFences s } := by
  refine ⟨by decide, by decide, by decide, ?_⟩
  intro s h
  unfold containsSub at h
  unfold streamSplit
  cases hs : splitFirst s "<thought>" with
  | none => rfl
  | some v => rw [hs] at h; simp at h

/-- Witness for C6 at concrete inputs: text with no tag is all main content,
and the tagged round-trip input splits as stated. -/
theorem thought_splitter_round_trip_witness :
    streamSplit "no tags here"
        = { thought := none, thinkingDone := false, main := stripFences "no tags here" }
      ∧ streamSplit "<thought>A</thought>B"
        = { thought := some "A", thinkingDone := true, main := "B" } :=
  ⟨thought_splitter_round_trip.2.2.2 "no tags here" (by decide),
   thought_splitter_round_trip.1⟩

/-- C7: SSE line handling.  Lines without the `"data: "` prefix leave the loop
state unchanged; the loop result never depends on what the JSON parser would
do with the literal `[DONE]` payload (it is skipped before parsing); and a
line whose payload fails to parse is silently discarded while processing of
the remaining lines continues, with no error propagated. -/
theorem sse_line_handling :
    (∀ parse st line, sStartsWith line "data: " = false → processLine parse st line = st)
      ∧ (∀ p q : String → Option Frame, ∀ st line,
          (∀ d, d ≠ "[DONE]" → p d = q d) → processLine p st line = processLine q st line)
      ∧ (∀ parse st line rest, parse (sDrop line 6) = none →
          processLines parse st (line :: rest) = processLines parse st rest) := by
  refine ⟨?_, ?_, ?_⟩
  · intro parse st line h
    unfold processLine
    cases ho : st.outcome with
    | some o => rfl
    | none => simp [h]
  · intro p q st line h
    unfold processLine
    cases ho : st.outcome with
    | some o => rfl
    | none =>
      cases hsw : sStartsWith line "data: " with
      | false => simp [hsw]
      | true =>
        by_cases hd : sDrop line 6 = "[DONE]"
        · simp [hsw, hd]
        · simp [hsw, hd, h (sDrop line 6) hd]
  · intro parse st line rest h
    unfold processLines
    rw [List.foldl_cons, processLine_failed_parse_skips parse st line h]

/-- Witness for C7: a non-data line is ignored, results agree for two parsers
that only differ at `[DONE]`, and a malformed data line is dropped while the
rest of the stream is still processed. -/
theorem sse_line_handling_witness :
    processLine parseNone initialLoopState "event: ping" = initialLoopState
      ∧ processLine parseNone initialLoopState "data: x"
          = processLine parseNone initialLoopState "data: x"
      ∧ processLines parseNone initialLoopState ["data: notjson", "data: [DONE]"]
          = processLines parseNone initialLoopState ["data: [DONE]"] :=
  ⟨sse_line_handling.1 parseNone initialLoopState "event: ping" (by decide),
   sse_line_handling.2.1 parseNone parseNone initialLoopState "data: x" (fun _ _ => rfl),
   sse_line_handling.2.2 parseNone initialLoopState "data: notjson" ["data: [DONE]"] rfl⟩

/-- C8 counterexample: the claim states content displayed before the done
signal is not fence-stripped, but the live streaming render already strips
fences: streamed text beginning with a Markdown fence is displayed without
it while the stream is still in progress. -/
theorem streaming_display_is_fence_stripped :
    (streamSplit "```markdown\nhello```").main = "hello"
      ∧ "hello" ≠ "```markdown\nhello```" := by
  refine ⟨by decide, by decide⟩

/-- C8 (amended): the code-fence stripping is applied to the final content in
the done handler and equally to the content displayed during streaming — for
any accumulated text without a thought tag, both the live streaming view and
the done-handler extraction show exactly the fence-stripped text. -/
theorem fence_strip_applied_streaming_and_done (s : String)
    (h : containsSub s "<thought>" = false) :
    (streamSplit s).main = stripFences s
      ∧ (finalExtract s).content = stripFences s := by
  unfold containsSub at h
  constructor
  · unfold streamSplit
    cases hs : splitFirst s "<thought>" with
    | none => rfl
    | some v => rw [hs] at h; simp at h
  · unfold finalExtract
    cases hs : splitFirst s "<thought>" with
    | none => rfl
    | some v => rw [hs] at h; simp at h

/-- Witness for the amended C8 at a concrete fenced input. -/
theorem fence_strip_applied_streaming_and_done_witness :
    (streamSplit "```txt\nhi```").main = stripFences "```txt\nhi```"
      ∧ (finalExtract "```txt\nhi```").content = stripFences "```txt\nhi```" :=
  fence_strip_applied_streaming_and_done "```txt\nhi```" (by decide)

/-- C9 counterexample: the claim states that every invocation of
`submitRequest` with a non-empty prompt clears the PII warning, the streaming
text and the sources.  Invoked while a request is already in flight
(`processingState = PROCESSING`), the prologue returns without clearing
anything: the stale indicators survive. -/
theorem submit_during_processing_keeps_indicators :
    sTrim c9State.promptInput ≠ ""
      ∧ (submitRequestPrologue c9State 99).piiWarning = true
      ∧ (submitRequestPrologue c9State 99).streamingText = "previous stream"
      ∧ (submitRequestPrologue c9State 99).currentSources ≠ [] := by
  refine ⟨by decide, by decide, by decide, by decide⟩

/-- C9 (amended): every invocation of `submitRequest` with a non-empty prompt
that is not rejected by the in-flight guard clears the PII warning, clears the
streaming text, empties the current sources, and appends the new user message
to the history — so no trust state of a previous message carries over into the new
request. -/
theorem submit_resets_trust_indicators (st : DashState) (now : Nat)
    (h1 : sTrim st.promptInput ≠ "")
    (h2 : st.processingState ≠ ProcessingState.processing) :
    (submitRequestPrologue st now).piiWarning = false
      ∧ (submitRequestPrologue st now).streamingText = ""
      ∧ (submitRequestPrologue st now).currentSources = []
      ∧ (submitRequestPrologue st now).chatHistory
          = st.chatHistory ++ [{ role := Role.user, content := st.promptInput, timestamp := now }] := by
  unfold submitRequestPrologue
  rw [if_neg (not_or.mpr ⟨h1, h2⟩)]
  exact ⟨rfl, rfl, rfl, rfl⟩

/-- Witness for the amended C9: an idle state with a stale PII warning and
stale sources is fully reset by an accepted submission. -/
theorem submit_resets_trust_indicators_witness :
    (submitRequestPrologue c9GoodState 7).piiWarning = false
      ∧ (submitRequestPrologue c9GoodState 7).streamingText = ""
      ∧ (submitRequestPrologue c9GoodState 7).currentSources = []
      ∧ (submitRequestPrologue c9GoodState 7).chatHistory
          = c9GoodState.chatHistory ++
            [{ role := Role.user, content := c9GoodState.promptInput, timestamp := 7 }] :=
  submit_resets_trust_indicators c9GoodState 7 (by decide) (by decide)

/-- C10: for every stored history and non-blank input, the request payload
built by `handleSubmit` is exactly the last five stored messages (fewer when
the history is shorter), projected to role/content pairs, followed by the new
user message — and therefore contains at most six messages regardless of how
long the history is. -/
theorem interaction_panel_window (messages : List PanelMessage) (input : String)
    (h : sTrim input ≠ "") :
    handleSubmitPayload messages input
        = some ((lastN 5 messages).map panelToWire ++ [{ role := "user", content := input }])
      ∧ ∀ req, handleSubmitPayload messages input = some req → req.length ≤ 6 := by
  constructor
  · unfold handleSubmitPayload
    rw [if_neg h, lastN_eq_drop]
  · intro req hreq
    unfold handleSubmitPayload at hreq
    rw [if_neg h] at hreq
    have hr := Option.some.inj hreq
    subst hr
    simp only [List.length_append, List.length_map, List.length_drop, List.length_cons,
      List.length_nil]
    omega

/-- Witness for C10: a seven-message history yields a six-message payload. -/
theorem interaction_panel_window_witness :
    handleSubmitPayload samplePanelHistory "next question"
        = some ((lastN 5 samplePanelHistory).map panelToWire ++
            [{ role := "user", content := "next question" }])
      ∧ ∀ req, handleSubmitPayload samplePanelHistory "next question" = some req →
          req.length ≤ 6 :=
  interaction_panel_window samplePanelHistory "next question" (by decide)

end Sabhya
